import Mathlib

/-!
Verification of the quarantine policy evaluation and impact-simulation
contract of the flaky-test-detector web application.

The repository ships the data model for this subsystem
(`packages/shared/src/types/quarantine.ts`) and the UI components that
consume it (`apps/web/components/QuarantineDashboard.tsx` and the
`QuarantinePolicyManager` component), while the decision procedure itself
runs behind the REST endpoints `/api/quarantine/*` and is specified in the
design document (sections 3, 4.1, 4.2, 7, 8).  The first part of this file
embeds that data model and the specified decision semantics; the second
part embeds the UI helper functions and fetch handlers exactly as written
in the React components.
-/

namespace FlakyQuarantine

/-- Decision produced by the Policy Evaluator (spec section 3:
`Quarantine(reason)`, `Unquarantine(reason)`, `NoAction`; section 4.1
additionally requires the cap-suppressed case to carry an observable
"quarantine cap reached" reason, hence the optional reason on `noAction`). -/
inductive QuarantineDecision where
  | quarantine (reason : String)
  | unquarantine (reason : String)
  | noAction (reason : Option String)
  deriving Repr, DecidableEq

/-- Modelled from the spec: `TestStabilityRecord` (section 3) — per-test
rolling statistics.  The record itself is absent from the supplied source;
its fields follow the spec and the `QuarantinedTest` interface of
`packages/shared/src/types/quarantine.ts`. -/
structure TestStabilityRecord where
  testName : String
  testSuite : Option String
  totalRuns : Nat
  failedRuns : Nat
  confidence : ℚ
  consecutiveFailures : Nat
  deriving Repr, DecidableEq

/-- Modelled from the spec: `failureRate = failedRuns/totalRuns` (0 if
`totalRuns = 0`), always recomputed from the counts (section 3). -/
def TestStabilityRecord.failureRate (r : TestStabilityRecord) : ℚ :=
  if r.totalRuns = 0 then 0 else (r.failedRuns : ℚ) / (r.totalRuns : ℚ)

/-- Policy configuration.  The fields mirror the source interface
`QuarantinePolicyConfig` (quarantine.ts lines 78-93).  The final two
fields are the two knobs the spec requires to be configurable rather than
hard-coded: the stricter consecutive-failure multiplier for critical-path
protection and the size N of the rapid-degradation lookback window
(spec section 4.1). -/
structure QuarantinePolicyConfig where
  failureRateThreshold : ℚ
  confidenceThreshold : ℚ
  consecutiveFailures : Nat
  minRunsRequired : Nat
  stabilityPeriod : Nat
  successRateRequired : ℚ
  minSuccessfulRuns : Nat
  highImpactSuites : List String
  priorityTests : List String
  enableRapidDegradation : Bool
  enableCriticalPathProtection : Bool
  enableTimeBasedRules : Bool
  maxQuarantinePeriod : Option Nat
  maxQuarantinePercentage : Option Nat
  criticalPathMultiplier : Nat
  rapidWindowSize : Nat
  deriving Repr, DecidableEq

/-- Modelled from the spec: the per-test evaluation context the evaluator
reads besides the bare statistics — the quarantine state derived from the
ledger ("currently quarantined" is the latest entry's action, section 3),
the counters accrued since quarantine (section 4.1 unquarantine rules),
the rapid-degradation lookback window over the last `rapidWindowSize`
runs (section 4.1), and the historical per-test impact contribution used
by the simulator for estimated savings (sections 4.2, 4.3). -/
structure TestQuarantineState where
  stats : TestStabilityRecord
  isQuarantined : Bool
  daysSinceQuarantine : Nat
  runsSinceQuarantine : Nat
  successesSinceQuarantine : Nat
  stableDays : Nat
  recentWindowRuns : Nat
  recentWindowFailures : Nat
  histCiMinutes : Nat
  histDevHours : ℚ
  histBuildsProtected : Nat
  deriving Repr, DecidableEq

/-- Failure rate over the rapid-degradation lookback window (0 when the
window is empty, mirroring the zero-division rule of section 4.3). -/
def TestQuarantineState.recentWindowRate (t : TestQuarantineState) : ℚ :=
  if t.recentWindowRuns = 0 then 0
  else (t.recentWindowFailures : ℚ) / (t.recentWindowRuns : ℚ)

/-- Success rate over the runs observed since quarantine (0 when none). -/
def TestQuarantineState.recentSuccessRate (t : TestQuarantineState) : ℚ :=
  if t.runsSinceQuarantine = 0 then 0
  else (t.successesSinceQuarantine : ℚ) / (t.runsSinceQuarantine : ℚ)

/-- Internal consistency of a test snapshot: counts never exceed the total
run count, the recent windows are sub-multisets of the history, and
confidence lies in [0,1] (spec section 3 attribute ranges). -/
def TestQuarantineState.WF (t : TestQuarantineState) : Prop :=
  t.stats.failedRuns ≤ t.stats.totalRuns ∧
  t.stats.consecutiveFailures ≤ t.stats.totalRuns ∧
  0 ≤ t.stats.confidence ∧ t.stats.confidence ≤ 1 ∧
  t.recentWindowRuns ≤ t.stats.totalRuns ∧
  t.recentWindowFailures ≤ t.recentWindowRuns ∧
  t.runsSinceQuarantine ≤ t.stats.totalRuns ∧
  t.successesSinceQuarantine ≤ t.runsSinceQuarantine

/-- Declared field ranges of a policy (spec section 3: thresholds in
[0,1], `consecutiveFailures ≥ 1`, `minRunsRequired ≥ 1`,
`minSuccessfulRuns ≥ 1`). -/
def QuarantinePolicyConfig.WF (p : QuarantinePolicyConfig) : Prop :=
  0 ≤ p.failureRateThreshold ∧ p.failureRateThreshold ≤ 1 ∧
  0 ≤ p.confidenceThreshold ∧ p.confidenceThreshold ≤ 1 ∧
  1 ≤ p.consecutiveFailures ∧ 1 ≤ p.minRunsRequired ∧
  0 ≤ p.successRateRequired ∧ p.successRateRequired ≤ 1 ∧
  1 ≤ p.minSuccessfulRuns

/-- Project-level context for the global safety cap (spec section 4.1):
how many OTHER tests of the project are currently quarantined, and the
total number of eligible tests. -/
structure ProjectCtx where
  otherQuarantined : Nat
  totalTests : Nat
  deriving Repr, DecidableEq

/-- Modelled from the spec: critical-path protection (section 4.1) — when
enabled and the test belongs to `priorityTests`, require the stricter
consecutive-failure bound given by the configurable multiplier. -/
def criticalPathOk (p : QuarantinePolicyConfig) (t : TestQuarantineState) : Bool :=
  !(p.enableCriticalPathProtection && p.priorityTests.contains t.stats.testName) ||
  decide (p.criticalPathMultiplier * p.consecutiveFailures ≤ t.stats.consecutiveFailures)

/-- Modelled from the spec: the base quarantine trigger — all four
conditions of section 4.1 plus the critical-path bound. -/
def quarantineTriggerBase (p : QuarantinePolicyConfig) (t : TestQuarantineState) : Bool :=
  decide (p.minRunsRequired ≤ t.stats.totalRuns) &&
  decide (p.failureRateThreshold ≤ t.stats.failureRate) &&
  decide (p.confidenceThreshold ≤ t.stats.confidence) &&
  decide (p.consecutiveFailures ≤ t.stats.consecutiveFailures) &&
  criticalPathOk p t

/-- Modelled from the spec: the rapid-degradation expedited path (section
4.1) — the lookback window failure rate alone exceeding the threshold
bypasses `minRunsRequired`. -/
def rapidDegradationPath (p : QuarantinePolicyConfig) (t : TestQuarantineState) : Bool :=
  p.enableRapidDegradation && decide (p.failureRateThreshold < t.recentWindowRate)

/-- Modelled from the spec: a test is quarantine-worthy when the base
trigger or the rapid-degradation path fires. -/
def quarantineTrigger (p : QuarantinePolicyConfig) (t : TestQuarantineState) : Bool :=
  quarantineTriggerBase p t || rapidDegradationPath p t

/-- Modelled from the spec: forced unquarantine once the elapsed days
exceed `maxQuarantinePeriod` (section 4.1, "prevents indefinite
quarantine"). -/
def forcedUnquarantine (p : QuarantinePolicyConfig) (t : TestQuarantineState) : Bool :=
  match p.maxQuarantinePeriod with
  | none => false
  | some m => decide (m < t.daysSinceQuarantine)

/-- Modelled from the spec: the regular unquarantine trigger (section 4.1;
the `days since quarantine ≥ 0` clause is vacuous over ℕ). -/
def regularUnquarantine (p : QuarantinePolicyConfig) (t : TestQuarantineState) : Bool :=
  decide (p.minSuccessfulRuns ≤ t.runsSinceQuarantine) &&
  decide (p.successRateRequired ≤ t.recentSuccessRate) &&
  decide (p.stabilityPeriod ≤ t.stableDays)

/-- Modelled from the spec: unquarantine fires on the forced path or the
regular stability path. -/
def unquarantineTrigger (p : QuarantinePolicyConfig) (t : TestQuarantineState) : Bool :=
  forcedUnquarantine p t || regularUnquarantine p t

/-- Modelled from the spec: the global safety cap (section 4.1) — the
evaluator may quarantine only when the resulting fraction of quarantined
tests stays within `maxQuarantinePercentage`.  The prospective count after
quarantining the focal test is `otherQuarantined + 1` whether or not the
focal test is already quarantined. -/
def capAllows (p : QuarantinePolicyConfig) (ctx : ProjectCtx) : Bool :=
  match p.maxQuarantinePercentage with
  | none => true
  | some cap => decide ((ctx.otherQuarantined + 1) * 100 ≤ cap * ctx.totalTests)

/-- Modelled from the spec: the Policy Evaluator (section 4.1).  The
unquarantine triggers are evaluated only for currently-quarantined tests;
a quarantine-worthy test is refused with the observable "quarantine cap
reached" reason when the cap would be exceeded. -/
def evaluatePolicy (p : QuarantinePolicyConfig) (ctx : ProjectCtx)
    (t : TestQuarantineState) : QuarantineDecision :=
  if t.isQuarantined && unquarantineTrigger p t then
    .unquarantine (if forcedUnquarantine p t then "max period exceeded" else "stability restored")
  else if quarantineTrigger p t then
    if capAllows p ctx then .quarantine "policy trigger"
    else .noAction (some "quarantine cap reached")
  else .noAction none

/-- Quarantine ledger action, from the source interface
`QuarantineHistoryEntry` (quarantine.ts lines 22-33). -/
inductive QuarantineAction where
  | quarantined
  | unquarantined
  | extended
  deriving Repr, DecidableEq

/-- Append-only ledger entry, from the source interface
`QuarantineHistoryEntry` (quarantine.ts lines 22-33): action, reason,
trigger origin and a snapshot of the statistics at decision time. -/
structure QuarantineHistoryEntry where
  action : QuarantineAction
  reason : String
  triggeredBy : String
  failureRate : ℚ
  confidence : ℚ
  consecutiveFailures : Nat
  deriving Repr, DecidableEq

/-- Running impact aggregate, from the source interface `QuarantineImpact`
(quarantine.ts lines 35-50); `closed` models the `periodEnd` stamp set on
unquarantine. -/
structure QuarantineImpact where
  buildsBlocked : Nat
  ciTimeWasted : Nat
  developerHours : ℚ
  falsePositives : Nat
  quarantinePeriod : Nat
  autoUnquarantined : Bool
  manualIntervention : Bool
  closed : Bool
  deriving Repr, DecidableEq

/-- Ledger entry recorded for an automatic decision, snapshotting the
statistics at decision time (spec section 3). -/
def mkLedgerEntry (a : QuarantineAction) (reason : String)
    (t : TestQuarantineState) : QuarantineHistoryEntry :=
  { action := a, reason := reason, triggeredBy := "auto",
    failureRate := t.stats.failureRate, confidence := t.stats.confidence,
    consecutiveFailures := t.stats.consecutiveFailures }

/-- Fresh impact record opened when a test enters quarantine (spec
section 3: mutated incrementally while quarantined, finalized on
unquarantine). -/
def openImpact : QuarantineImpact :=
  { buildsBlocked := 0, ciTimeWasted := 0, developerHours := 0,
    falsePositives := 0, quarantinePeriod := 0, autoUnquarantined := false,
    manualIntervention := false, closed := false }

/-- Modelled from the spec: the state an evaluation run for one focal test
reads and commits to — the test snapshot, the project-level cap context,
the append-only ledger and the impact records (spec sections 3, 4.1, 5). -/
structure SystemState where
  test : TestQuarantineState
  ctx : ProjectCtx
  ledger : List QuarantineHistoryEntry
  impacts : List QuarantineImpact
  deriving Repr, DecidableEq

/-- Modelled from the spec: one evaluator invocation for a single test
(spec sections 4.1 and 5).  The decision is the pure function
`evaluatePolicy`; the commit step is the atomic check-and-write of
section 5: a `quarantine` decision appends a ledger entry and opens an
impact record only when the test is not already quarantined, an
`unquarantine` decision closes it only when the test is quarantined, and
`noAction` commits nothing. -/
def runCheck (p : QuarantinePolicyConfig) (s : SystemState) :
    QuarantineDecision × SystemState :=
  match evaluatePolicy p s.ctx s.test with
  | .quarantine r =>
    if s.test.isQuarantined then (.quarantine r, s)
    else
      (.quarantine r,
       { s with
         test := { s.test with
                   isQuarantined := true
                   daysSinceQuarantine := 0
                   runsSinceQuarantine := 0
                   successesSinceQuarantine := 0
                   stableDays := 0 }
         ledger := s.ledger ++ [mkLedgerEntry .quarantined r s.test]
         impacts := s.impacts ++ [openImpact] })
  | .unquarantine r =>
    if s.test.isQuarantined then
      (.unquarantine r,
       { s with
         test := { s.test with isQuarantined := false }
         ledger := s.ledger ++ [mkLedgerEntry .unquarantined r s.test]
         impacts := s.impacts.map (fun i =>
           if i.closed then i
           else { i with
                  closed := true
                  quarantinePeriod := s.test.daysSinceQuarantine
                  autoUnquarantined := forcedUnquarantine p s.test }) })
    else (.unquarantine r, s)
  | .noAction r => (.noAction r, s)

/-- Simulation result, from the source interface `PolicyImpactSimulation`
(quarantine.ts lines 189-202), with its nested `estimatedSavings` and
`potentialRisks` objects flattened into the two structures below. -/
structure EstimatedSavings where
  ciMinutes : Nat
  developerHours : ℚ
  buildsProtected : Nat
  deriving Repr, DecidableEq

/-- Risk block of the simulation result (quarantine.ts lines 197-201). -/
structure PotentialRisks where
  falsePositives : Nat
  overQuarantine : Bool
  criticalTestsAffected : Nat
  deriving Repr, DecidableEq

/-- Top level of the simulation result (quarantine.ts lines 189-202). -/
structure PolicyImpactSimulation where
  wouldQuarantine : Nat
  wouldUnquarantine : Nat
  estimatedSavings : EstimatedSavings
  potentialRisks : PotentialRisks
  deriving Repr, DecidableEq

/-- Modelled from the spec: a project's read-only snapshot handed to the
Impact Simulator — all historical stability records with their quarantine
state, plus the ledger and impact stores the simulation must not touch
(spec section 4.2). -/
structure ProjectState where
  tests : List TestQuarantineState
  ledger : List QuarantineHistoryEntry
  impacts : List QuarantineImpact
  deriving Repr, DecidableEq

/-- Tests the candidate policy would newly quarantine today (spec section
4.2): not currently quarantined and the quarantine trigger fires. -/
def wouldQuarantineList (p : QuarantinePolicyConfig)
    (ts : List TestQuarantineState) : List TestQuarantineState :=
  ts.filter (fun t => !t.isQuarantined && quarantineTrigger p t)

/-- Currently-quarantined tests the candidate policy would release (spec
section 4.2). -/
def wouldUnquarantineList (p : QuarantinePolicyConfig)
    (ts : List TestQuarantineState) : List TestQuarantineState :=
  ts.filter (fun t => t.isQuarantined && unquarantineTrigger p t)

/-- Modelled from the spec: the Impact Simulator computation (section
4.2).  Savings sum the historical per-test impact contribution over the
`wouldQuarantine` tests; `falsePositives` uses a moderate-failure-rate
heuristic (the spec leaves the exact heuristic open, section 9, so one is
fixed here: moderate means failure rate below one half);
`overQuarantine` is true when `wouldQuarantine` exceeds the 25 percent
sanity fraction of all tests or the section 4.1 cap would be hit;
`criticalTestsAffected` counts priority tests among `wouldQuarantine`. -/
def computeSimulation (p : QuarantinePolicyConfig) (st : ProjectState) :
    PolicyImpactSimulation :=
  let wq := wouldQuarantineList p st.tests
  let wu := wouldUnquarantineList p st.tests
  let curQ := (st.tests.filter (fun t => t.isQuarantined)).length
  { wouldQuarantine := wq.length
    wouldUnquarantine := wu.length
    estimatedSavings :=
      { ciMinutes := (wq.map (fun t => t.histCiMinutes)).sum
        developerHours := (wq.map (fun t => t.histDevHours)).sum
        buildsProtected := (wq.map (fun t => t.histBuildsProtected)).sum }
    potentialRisks :=
      { falsePositives :=
          (wq.filter (fun t => decide (t.stats.failureRate < 1/2))).length
        overQuarantine :=
          decide (25 * st.tests.length < wq.length * 100) ||
          (match p.maxQuarantinePercentage with
           | none => false
           | some cap => decide (cap * st.tests.length < (curQ + wq.length) * 100))
        criticalTestsAffected :=
          (wq.filter (fun t => p.priorityTests.contains t.stats.testName)).length } }

/-- Modelled from the spec: policy field validation (sections 3 and 7) —
every violated field is reported, not just the first. -/
def validatePolicyConfig (p : QuarantinePolicyConfig) : List String :=
  (if 0 ≤ p.failureRateThreshold ∧ p.failureRateThreshold ≤ 1 then []
   else ["failureRateThreshold"]) ++
  (if 0 ≤ p.confidenceThreshold ∧ p.confidenceThreshold ≤ 1 then []
   else ["confidenceThreshold"]) ++
  (if 1 ≤ p.consecutiveFailures then [] else ["consecutiveFailures"]) ++
  (if 1 ≤ p.minRunsRequired then [] else ["minRunsRequired"]) ++
  (if 0 ≤ p.successRateRequired ∧ p.successRateRequired ≤ 1 then []
   else ["successRateRequired"]) ++
  (if 1 ≤ p.minSuccessfulRuns then [] else ["minSuccessfulRuns"]) ++
  (match p.maxQuarantinePercentage with
   | none => []
   | some cap => if cap ≤ 100 then [] else ["maxQuarantinePercentage"])

/-- Modelled from the spec: the `POST /api/quarantine/policies/simulate`
operation (sections 4.2, 6, 7).  A malformed candidate config aborts with
the full violation list; otherwise the simulation result is computed.
Either way the project state is returned untouched: the simulation has no
write path. -/
def simulatePolicyEndpoint (p : QuarantinePolicyConfig) (st : ProjectState) :
    (Except (List String) PolicyImpactSimulation) × ProjectState :=
  if (validatePolicyConfig p).isEmpty then (.ok (computeSimulation p st), st)
  else (.error (validatePolicyConfig p), st)

section EndToEndScenario

/-- The policy of the section 8 end-to-end scenario: the four listed
trigger fields, all other fields at the defaults of the policy creation
form (`QuarantinePolicyManager`, part_007 lines 121-137), with no
percentage cap since the scenario fixes no project context. -/
def policyC6 : QuarantinePolicyConfig :=
  { failureRateThreshold := 1/2
    confidenceThreshold := 7/10
    consecutiveFailures := 3
    minRunsRequired := 5
    stabilityPeriod := 7
    successRateRequired := 19/20
    minSuccessfulRuns := 10
    highImpactSuites := []
    priorityTests := []
    enableRapidDegradation := true
    enableCriticalPathProtection := true
    enableTimeBasedRules := false
    maxQuarantinePeriod := some 30
    maxQuarantinePercentage := none
    criticalPathMultiplier := 2
    rapidWindowSize := 5 }

/-- The test of the section 8 end-to-end scenario: `totalRuns = 20`,
`failedRuns = 12` (failure rate 0.6), confidence 0.8, four consecutive
failures, not currently quarantined. -/
def testC6 : TestQuarantineState :=
  { stats :=
      { testName := "checkout flow"
        testSuite := some "e2e"
        totalRuns := 20
        failedRuns := 12
        confidence := 4/5
        consecutiveFailures := 4 }
    isQuarantined := false
    daysSinceQuarantine := 0
    runsSinceQuarantine := 0
    successesSinceQuarantine := 0
    stableDays := 0
    recentWindowRuns := 5
    recentWindowFailures := 3
    histCiMinutes := 0
    histDevHours := 0
    histBuildsProtected := 0 }

/-- Claim C6: for a record with `totalRuns = 20`, `failedRuns = 12`
(failure rate 0.6), confidence 0.8 and 4 consecutive failures, evaluated
under a policy with `failureRateThreshold = 0.5`,
`confidenceThreshold = 0.7`, `consecutiveFailures = 3` and
`minRunsRequired = 5`, the Policy Evaluator decides Quarantine: all four
quarantine-trigger conditions hold. -/
theorem evaluator_end_to_end_quarantine :
    evaluatePolicy policyC6 { otherQuarantined := 0, totalTests := 4 } testC6 =
      QuarantineDecision.quarantine "policy trigger" := by
  norm_num [evaluatePolicy, quarantineTrigger, quarantineTriggerBase,
    rapidDegradationPath, criticalPathOk, unquarantineTrigger,
    forcedUnquarantine, regularUnquarantine, capAllows, policyC6, testC6,
    TestStabilityRecord.failureRate, TestQuarantineState.recentWindowRate,
    TestQuarantineState.recentSuccessRate]

end EndToEndScenario

section ZeroRuns

/-- Claim C2 (amended): for every well-formed record with `totalRuns = 0`
that is not currently quarantined, under any policy with its declared
field ranges (`minRunsRequired ≥ 1`, non-negative failure-rate
threshold), the Policy Evaluator returns `NoAction`, and the failure rate
is taken as 0 without dividing by zero. -/
theorem zero_runs_yields_no_action (p : QuarantinePolicyConfig)
    (ctx : ProjectCtx) (t : TestQuarantineState) (hwf : t.WF)
    (hp1 : 1 ≤ p.minRunsRequired) (hp0 : 0 ≤ p.failureRateThreshold)
    (h0 : t.stats.totalRuns = 0) (hq : t.isQuarantined = false) :
    evaluatePolicy p ctx t = QuarantineDecision.noAction none ∧
      t.stats.failureRate = 0 := by
  have hw : t.recentWindowRuns = 0 := by
    have h := hwf.2.2.2.2.1
    omega
  have hmin : ¬ p.minRunsRequired ≤ t.stats.totalRuns := by omega
  have hrate : ¬ p.failureRateThreshold < t.recentWindowRate := by
    rw [TestQuarantineState.recentWindowRate, if_pos hw]
    exact not_lt.mpr hp0
  refine ⟨?_, by simp [TestStabilityRecord.failureRate, h0]⟩
  simp [evaluatePolicy, hq, quarantineTrigger, quarantineTriggerBase,
    rapidDegradationPath, hmin, hrate]

/-- Policy used in the C2 counterexample and witness: thresholds at the
creation-form defaults and `maxQuarantinePeriod = 30`. -/
def policyC2 : QuarantinePolicyConfig :=
  { policyC6 with criticalPathMultiplier := 2 }

/-- A record with `totalRuns = 0` that is nonetheless marked quarantined
for 31 days — internally consistent, though unreachable through the
record lifecycle. -/
def testC2 : TestQuarantineState :=
  { stats :=
      { testName := "zero evidence"
        testSuite := none
        totalRuns := 0
        failedRuns := 0
        confidence := 0
        consecutiveFailures := 0 }
    isQuarantined := true
    daysSinceQuarantine := 31
    runsSinceQuarantine := 0
    successesSinceQuarantine := 0
    stableDays := 0
    recentWindowRuns := 0
    recentWindowFailures := 0
    histCiMinutes := 0
    histDevHours := 0
    histBuildsProtected := 0 }

/-- Claim C2 counterexample: the claim quantifies over every record with
`totalRuns = 0` and every policy; for a quarantined such record 31 days
into quarantine under a policy with `maxQuarantinePeriod = 30`, the
forced-unquarantine rule of spec section 4.1 fires and the decision is
`Unquarantine`, not `NoAction`. -/
theorem zero_runs_claim_counterexample :
    evaluatePolicy policyC2 { otherQuarantined := 0, totalTests := 4 } testC2 =
      QuarantineDecision.unquarantine "max period exceeded" ∧
    evaluatePolicy policyC2 { otherQuarantined := 0, totalTests := 4 } testC2 ≠
      QuarantineDecision.noAction none := by
  have h1 : evaluatePolicy policyC2 { otherQuarantined := 0, totalTests := 4 }
      testC2 = QuarantineDecision.unquarantine "max period exceeded" := by
    norm_num [evaluatePolicy, unquarantineTrigger, forcedUnquarantine,
      regularUnquarantine, policyC2, policyC6, testC2,
      TestQuarantineState.recentSuccessRate]
  exact ⟨h1, by rw [h1]; exact fun hc => QuarantineDecision.noConfusion hc⟩

/-- The not-quarantined zero-runs record used to witness the amended C2
theorem. -/
def testC2w : TestQuarantineState :=
  { testC2 with isQuarantined := false, daysSinceQuarantine := 0 }

/-- Witness for the amended C2 theorem at a concrete zero-runs record. -/
theorem zero_runs_yields_no_action_witness :
    evaluatePolicy policyC2 { otherQuarantined := 0, totalTests := 4 } testC2w =
      QuarantineDecision.noAction none ∧ testC2w.stats.failureRate = 0 :=
  zero_runs_yields_no_action policyC2 _ testC2w
    (by refine ⟨?_, ?_, ?_, ?_, ?_, ?_, ?_, ?_⟩ <;>
      simp [testC2w, testC2, TestQuarantineState.WF])
    (by simp [policyC2, policyC6]) (by norm_num [policyC2, policyC6])
    (by simp [testC2w, testC2]) (by simp [testC2w, testC2])

end ZeroRuns

section CapEnforcement

/-- Claim C5: whenever `maxQuarantinePercentage` is set and quarantining
one more test would push the quarantined fraction of the project above
the cap, the Policy Evaluator never quarantines a not-yet-quarantined
test; when the quarantine trigger fires it returns `NoAction` carrying
the observable "quarantine cap reached" reason instead. -/
theorem cap_blocks_quarantine (p : QuarantinePolicyConfig)
    (ctx : ProjectCtx) (t : TestQuarantineState) (cap : Nat)
    (hcap : p.maxQuarantinePercentage = some cap)
    (hq : t.isQuarantined = false)
    (hover : cap * ctx.totalTests < (ctx.otherQuarantined + 1) * 100) :
    (∀ r, evaluatePolicy p ctx t ≠ QuarantineDecision.quarantine r) ∧
    (quarantineTrigger p t = true →
      evaluatePolicy p ctx t =
        QuarantineDecision.noAction (some "quarantine cap reached")) := by
  have hcA : capAllows p ctx = false := by
    simp [capAllows, hcap]
    omega
  constructor
  · intro r
    by_cases htr : quarantineTrigger p t = true <;>
      simp [evaluatePolicy, hq, hcA, htr]
  · intro htr
    simp [evaluatePolicy, hq, hcA, htr]

/-- Policy used in the C5 witness: a 25 percent cap and permissive
trigger thresholds. -/
def policyC5 : QuarantinePolicyConfig :=
  { failureRateThreshold := 0
    confidenceThreshold := 0
    consecutiveFailures := 1
    minRunsRequired := 1
    stabilityPeriod := 7
    successRateRequired := 19/20
    minSuccessfulRuns := 10
    highImpactSuites := []
    priorityTests := []
    enableRapidDegradation := false
    enableCriticalPathProtection := false
    enableTimeBasedRules := false
    maxQuarantinePeriod := some 30
    maxQuarantinePercentage := some 25
    criticalPathMultiplier := 2
    rapidWindowSize := 5 }

/-- Trigger-satisfying candidate test used in the C5 witness. -/
def testC5 : TestQuarantineState :=
  { stats :=
      { testName := "flaky login"
        testSuite := none
        totalRuns := 1
        failedRuns := 1
        confidence := 1
        consecutiveFailures := 1 }
    isQuarantined := false
    daysSinceQuarantine := 0
    runsSinceQuarantine := 0
    successesSinceQuarantine := 0
    stableDays := 0
    recentWindowRuns := 0
    recentWindowFailures := 0
    histCiMinutes := 0
    histDevHours := 0
    histBuildsProtected := 0 }

/-- Witness for C5 at the concrete scenario of the claim: 4 eligible
tests, a 25 percent cap, 1 test already quarantined; a further candidate
that satisfies the quarantine trigger gets `NoAction` with the cap
reason. -/
theorem cap_blocks_quarantine_witness :
    quarantineTrigger policyC5 testC5 = true ∧
    evaluatePolicy policyC5 { otherQuarantined := 1, totalTests := 4 } testC5 =
      QuarantineDecision.noAction (some "quarantine cap reached") := by
  have htr : quarantineTrigger policyC5 testC5 = true := by
    simp [quarantineTrigger, quarantineTriggerBase, rapidDegradationPath,
      criticalPathOk, policyC5, testC5, TestStabilityRecord.failureRate,
      zero_le_one]
  exact ⟨htr,
    (cap_blocks_quarantine policyC5 { otherQuarantined := 1, totalTests := 4 }
      testC5 25 rfl rfl (by decide)).2 htr⟩

end CapEnforcement

section ThresholdMonotonicity

/-- Candidate config equal to `p` except for the failure-rate threshold —
the "differ only in failureRateThreshold" relation of the monotonicity
property (spec section 8). -/
def setFailureRateThreshold (p : QuarantinePolicyConfig) (q : ℚ) :
    QuarantinePolicyConfig :=
  { p with failureRateThreshold := q }

/-- The critical-path bound ignores the failure-rate threshold. -/
lemma criticalPathOk_setThreshold (p : QuarantinePolicyConfig) (q : ℚ)
    (t : TestQuarantineState) :
    criticalPathOk (setFailureRateThreshold p q) t = criticalPathOk p t := rfl

/-- Raising the failure-rate threshold can only turn the quarantine
trigger off: both the base trigger and the rapid-degradation path compare
the observed rate against the threshold and nothing else in the trigger
reads it. -/
lemma quarantineTrigger_antitone (p : QuarantinePolicyConfig) (q q' : ℚ)
    (t : TestQuarantineState) (hle : q ≤ q')
    (h : quarantineTrigger (setFailureRateThreshold p q') t = true) :
    quarantineTrigger (setFailureRateThreshold p q) t = true := by
  rw [quarantineTrigger, Bool.or_eq_true] at h ⊢
  rcases h with hbase | hrapid
  · left
    rw [quarantineTriggerBase, criticalPathOk_setThreshold] at hbase ⊢
    simp only [setFailureRateThreshold, Bool.and_eq_true, decide_eq_true_eq] at hbase ⊢
    exact ⟨⟨⟨⟨hbase.1.1.1.1, le_trans hle hbase.1.1.1.2⟩, hbase.1.1.2⟩,
      hbase.1.2⟩, hbase.2⟩
  · right
    rw [rapidDegradationPath] at hrapid ⊢
    simp only [setFailureRateThreshold, Bool.and_eq_true, decide_eq_true_eq] at hrapid ⊢
    exact ⟨hrapid.1, lt_of_le_of_lt hle hrapid.2⟩

/-- Pointwise implication between filters bounds the filtered length. -/
lemma filter_length_mono {α : Type} (f g : α → Bool) (l : List α)
    (h : ∀ a ∈ l, f a = true → g a = true) :
    (l.filter f).length ≤ (l.filter g).length := by
  induction l with
  | nil => simp
  | cons a tl ih =>
    have ih' := ih (fun b hb hf => h b (List.mem_cons_of_mem a hb) hf)
    by_cases hf : f a = true
    · have hg := h a (List.mem_cons_self a tl) hf
      simp only [List.filter_cons, hf, hg, if_true, List.length_cons]
      omega
    · by_cases hg : g a = true <;>
        simp only [List.filter_cons, hf, hg, if_true, if_false,
          List.length_cons, Bool.false_eq_true] <;> omega

/-- Claim C4: for two candidate configs that differ only in
`failureRateThreshold`, with fixed historical data, the `wouldQuarantine`
set computed by the Impact Simulator under the higher threshold is a
subset of the one under the lower threshold, and its count never grows. -/
theorem simulation_wouldQuarantine_monotone (p : QuarantinePolicyConfig)
    (st : ProjectState) (q q' : ℚ) (hle : q ≤ q') :
    wouldQuarantineList (setFailureRateThreshold p q') st.tests ⊆
      wouldQuarantineList (setFailureRateThreshold p q) st.tests ∧
    (computeSimulation (setFailureRateThreshold p q') st).wouldQuarantine ≤
      (computeSimulation (setFailureRateThreshold p q) st).wouldQuarantine := by
  have hpt : ∀ t, (!t.isQuarantined &&
        quarantineTrigger (setFailureRateThreshold p q') t) = true →
      (!t.isQuarantined &&
        quarantineTrigger (setFailureRateThreshold p q) t) = true := by
    intro t ht
    rw [Bool.and_eq_true] at ht ⊢
    exact ⟨ht.1, quarantineTrigger_antitone p q q' t hle ht.2⟩
  constructor
  · intro x hx
    rw [wouldQuarantineList, List.mem_filter] at hx ⊢
    exact ⟨hx.1, hpt x hx.2⟩
  · exact filter_length_mono _ _ st.tests (fun a _ => hpt a)

/-- Policy used in the C4 witness. -/
def policyC4 : QuarantinePolicyConfig :=
  { policyC5 with maxQuarantinePercentage := none }

/-- Historical snapshot used in the C4 witness: one candidate test. -/
def projectC4 : ProjectState :=
  { tests := [testC5], ledger := [], impacts := [] }

/-- Witness for C4 at thresholds 0 and 1 over a concrete snapshot. -/
theorem simulation_wouldQuarantine_monotone_witness :
    (0 : ℚ) ≤ 1 ∧
    wouldQuarantineList (setFailureRateThreshold policyC4 1) projectC4.tests ⊆
      wouldQuarantineList (setFailureRateThreshold policyC4 0) projectC4.tests ∧
    (computeSimulation (setFailureRateThreshold policyC4 1) projectC4).wouldQuarantine ≤
      (computeSimulation (setFailureRateThreshold policyC4 0) projectC4).wouldQuarantine :=
  ⟨zero_le_one,
    (simulation_wouldQuarantine_monotone policyC4 projectC4 0 1 zero_le_one).1,
    (simulation_wouldQuarantine_monotone policyC4 projectC4 0 1 zero_le_one).2⟩

end ThresholdMonotonicity

section SimulationPurity

/-- Claim C1: for every candidate policy config over a fixed historical
snapshot, calling the impact simulator twice in a row returns identical
results, creates no `QuarantineHistoryEntry` ledger rows and mutates no
`QuarantineImpact` record — after either call the ledger and impact
stores are exactly the initial ones. -/
theorem simulation_read_only (p : QuarantinePolicyConfig)
    (st : ProjectState) :
    (simulatePolicyEndpoint p st).1 =
      (simulatePolicyEndpoint p (simulatePolicyEndpoint p st).2).1 ∧
    (simulatePolicyEndpoint p st).2.ledger = st.ledger ∧
    (simulatePolicyEndpoint p st).2.impacts = st.impacts ∧
    (simulatePolicyEndpoint p (simulatePolicyEndpoint p st).2).2.ledger = st.ledger ∧
    (simulatePolicyEndpoint p (simulatePolicyEndpoint p st).2).2.impacts = st.impacts := by
  by_cases h : (validatePolicyConfig p).isEmpty <;>
    simp [simulatePolicyEndpoint, h]

end SimulationPurity

section EvaluatorIdempotence

/-- Inversion of a `quarantine` decision: the trigger fired, the cap
allowed it, and the reason is the trigger reason. -/
lemma evaluatePolicy_quarantine_inv (p : QuarantinePolicyConfig)
    (ctx : ProjectCtx) (t : TestQuarantineState) (r : String)
    (h : evaluatePolicy p ctx t = QuarantineDecision.quarantine r) :
    quarantineTrigger p t = true ∧ capAllows p ctx = true ∧
      r = "policy trigger" := by
  rw [evaluatePolicy] at h
  split at h
  · exact absurd h (by simp)
  · split at h
    · split at h
      · next htr hcap =>
        injection h with hr
        exact ⟨htr, hcap, hr.symm⟩
      · exact absurd h (by simp)
    · exact absurd h (by simp)

/-- A test that has just been committed to quarantine (zero elapsed days
and zero runs since quarantine) satisfies no unquarantine trigger as long
as the policy demands at least one successful run, so the evaluator
re-issues the same `quarantine` decision. -/
lemma evaluatePolicy_fresh_quarantine (p : QuarantinePolicyConfig)
    (ctx : ProjectCtx) (t : TestQuarantineState)
    (hmin : 1 ≤ p.minSuccessfulRuns)
    (htr : quarantineTrigger p t = true) (hcap : capAllows p ctx = true) :
    evaluatePolicy p ctx
      { t with
        isQuarantined := true
        daysSinceQuarantine := 0
        runsSinceQuarantine := 0
        successesSinceQuarantine := 0
        stableDays := 0 } =
      QuarantineDecision.quarantine "policy trigger" := by
  have hforced : forcedUnquarantine p
      { t with
        isQuarantined := true
        daysSinceQuarantine := 0
        runsSinceQuarantine := 0
        successesSinceQuarantine := 0
        stableDays := 0 } = false := by
    rw [forcedUnquarantine]
    cases p.maxQuarantinePeriod with
    | none => rfl
    | some m => simp
  have hreg : regularUnquarantine p
      { t with
        isQuarantined := true
        daysSinceQuarantine := 0
        runsSinceQuarantine := 0
        successesSinceQuarantine := 0
        stableDays := 0 } = false := by
    rw [regularUnquarantine]
    have hns : ¬ p.minSuccessfulRuns ≤ 0 := by omega
    simp [hns]
  have htr' : quarantineTrigger p
      { t with
        isQuarantined := true
        daysSinceQuarantine := 0
        runsSinceQuarantine := 0
        successesSinceQuarantine := 0
        stableDays := 0 } = true := htr
  simp [evaluatePolicy, unquarantineTrigger, hforced, hreg, htr', hcap]

/-- Claim C3 (amended): re-evaluating the pure decision function on
identical inputs trivially yields the same decision; at the system level,
whenever the first evaluator run does not unquarantine the test
(it decided `Quarantine` or `NoAction`), a second sequential run with no
intervening data change returns the same decision and commits nothing:
the second call is a no-op on an already-quarantined test and appends no
duplicate ledger entry. -/
theorem runCheck_idempotent_unless_unquarantine (p : QuarantinePolicyConfig)
    (s : SystemState) (hmin : 1 ≤ p.minSuccessfulRuns)
    (hnu : ∀ r, (runCheck p s).1 ≠ QuarantineDecision.unquarantine r) :
    runCheck p (runCheck p s).2 = runCheck p s := by
  cases hev : evaluatePolicy p s.ctx s.test with
  | quarantine r =>
    by_cases hq : s.test.isQuarantined = true
    · have h1 : runCheck p s = (QuarantineDecision.quarantine r, s) := by
        simp [runCheck, hev, hq]
      rw [h1]
      exact h1
    · have hq' : s.test.isQuarantined = false := by
        simpa using hq
      obtain ⟨htr, hcap, hr⟩ := evaluatePolicy_quarantine_inv p s.ctx s.test r hev
      subst hr
      have h2 := evaluatePolicy_fresh_quarantine p s.ctx s.test hmin htr hcap
      simp [runCheck, hev, hq', h2]
  | unquarantine r =>
    exfalso
    apply hnu r
    by_cases hq : s.test.isQuarantined = true <;> simp [runCheck, hev, hq]
  | noAction r =>
    have h1 : runCheck p s = (QuarantineDecision.noAction r, s) := by
      simp [runCheck, hev]
    rw [h1]
    exact h1

/-- Policy used in the C3 counterexample and witness:
`maxQuarantinePeriod = 30` with the form-default trigger thresholds. -/
def policyC3 : QuarantinePolicyConfig :=
  { policyC6 with enableRapidDegradation := false }

/-- A still-flaky test 31 days into quarantine: past the maximum
quarantine period while its overall statistics still satisfy the
quarantine trigger. -/
def testC3 : TestQuarantineState :=
  { stats :=
      { testName := "payment retry"
        testSuite := some "integration"
        totalRuns := 40
        failedRuns := 24
        confidence := 4/5
        consecutiveFailures := 4 }
    isQuarantined := true
    daysSinceQuarantine := 31
    runsSinceQuarantine := 5
    successesSinceQuarantine := 1
    stableDays := 0
    recentWindowRuns := 5
    recentWindowFailures := 3
    histCiMinutes := 0
    histDevHours := 0
    histBuildsProtected := 0 }

/-- Initial system state of the C3 counterexample. -/
def stateC3 : SystemState :=
  { test := testC3
    ctx := { otherQuarantined := 0, totalTests := 4 }
    ledger := []
    impacts := [] }

/-- Claim C3 counterexample: evaluating twice in sequence on this input
does not yield the same decision and the second call is not a no-op — the
first run force-unquarantines the test past `maxQuarantinePeriod`, and the
second run immediately re-quarantines it, appending a second ledger
entry. -/
theorem evaluator_idempotence_counterexample :
    (runCheck policyC3 stateC3).1 =
      QuarantineDecision.unquarantine "max period exceeded" ∧
    (runCheck policyC3 (runCheck policyC3 stateC3).2).1 =
      QuarantineDecision.quarantine "policy trigger" ∧
    (runCheck policyC3 (runCheck policyC3 stateC3).2).1 ≠
      (runCheck policyC3 stateC3).1 ∧
    (runCheck policyC3 (runCheck policyC3 stateC3).2).2.ledger.length = 2 := by
  have e1 : evaluatePolicy policyC3 stateC3.ctx stateC3.test =
      QuarantineDecision.unquarantine "max period exceeded" := by
    norm_num [evaluatePolicy, unquarantineTrigger, forcedUnquarantine,
      regularUnquarantine, policyC3, policyC6, testC3, stateC3,
      TestQuarantineState.recentSuccessRate]
  have h1 : runCheck policyC3 stateC3 =
      (QuarantineDecision.unquarantine "max period exceeded",
       { stateC3 with
         test := { testC3 with isQuarantined := false }
         ledger := [mkLedgerEntry .unquarantined "max period exceeded" testC3]
         impacts := [] }) := by
    simp only [runCheck, e1]
    rfl
  have e2 : evaluatePolicy policyC3 stateC3.ctx
      { testC3 with isQuarantined := false } =
      QuarantineDecision.quarantine "policy trigger" := by
    norm_num [evaluatePolicy, unquarantineTrigger, forcedUnquarantine,
      regularUnquarantine, quarantineTrigger, quarantineTriggerBase,
      rapidDegradationPath, criticalPathOk, capAllows, policyC3, policyC6,
      testC3, stateC3, TestStabilityRecord.failureRate,
      TestQuarantineState.recentWindowRate,
      TestQuarantineState.recentSuccessRate]
  have h2 : runCheck policyC3
      { stateC3 with
        test := { testC3 with isQuarantined := false }
        ledger := [mkLedgerEntry .unquarantined "max period exceeded" testC3]
        impacts := [] } =
      (QuarantineDecision.quarantine "policy trigger",
       { stateC3 with
         test := { testC3 with
                   isQuarantined := true
                   daysSinceQuarantine := 0
                   runsSinceQuarantine := 0
                   successesSinceQuarantine := 0
                   stableDays := 0 }
         ledger := [mkLedgerEntry .unquarantined "max period exceeded" testC3,
                    mkLedgerEntry .quarantined "policy trigger"
                      { testC3 with isQuarantined := false }]
         impacts := [openImpact] }) := by
    simp only [runCheck, e2]
    rfl
  have hA : (runCheck policyC3 stateC3).1 =
      QuarantineDecision.unquarantine "max period exceeded" := by rw [h1]
  have hB : (runCheck policyC3 (runCheck policyC3 stateC3).2).1 =
      QuarantineDecision.quarantine "policy trigger" := by rw [h1]; exact congrArg Prod.fst h2
  refine ⟨hA, hB, ?_, ?_⟩
  · rw [hA, hB]
    exact fun hc => QuarantineDecision.noConfusion hc
  · rw [h1]
    rw [h2]
    rfl

/-- Not-yet-quarantined trigger-satisfying test for the C3 witness. -/
def testC3w : TestQuarantineState :=
  { testC3 with isQuarantined := false }

/-- Initial system state of the C3 witness. -/
def stateC3w : SystemState :=
  { test := testC3w
    ctx := { otherQuarantined := 0, totalTests := 4 }
    ledger := []
    impacts := [] }

/-- Witness for the amended C3 theorem: the first run quarantines the
test and the second sequential run is a complete no-op. -/
theorem runCheck_idempotent_witness :
    runCheck policyC3 (runCheck policyC3 stateC3w).2 = runCheck policyC3 stateC3w := by
  have hW : (runCheck policyC3 stateC3w).1 =
      QuarantineDecision.quarantine "policy trigger" := by
    have eW : evaluatePolicy policyC3 stateC3w.ctx stateC3w.test =
        QuarantineDecision.quarantine "policy trigger" := by
      norm_num [evaluatePolicy, unquarantineTrigger, forcedUnquarantine,
        regularUnquarantine, quarantineTrigger, quarantineTriggerBase,
        rapidDegradationPath, criticalPathOk, capAllows, policyC3, policyC6,
        testC3, testC3w, stateC3w, TestStabilityRecord.failureRate,
        TestQuarantineState.recentWindowRate,
        TestQuarantineState.recentSuccessRate]
    simp only [runCheck, eW]
    rfl
  exact runCheck_idempotent_unless_unquarantine policyC3 stateC3w (by decide)
    (fun r hr => by rw [hW] at hr; exact QuarantineDecision.noConfusion hr)

end EvaluatorIdempotence

section DashboardHelpers

/-- From `QuarantineDashboard.tsx` lines 149-153: CSS classes for the
quarantine-age badge. -/
def getQuarantineStatusColor (days : Nat) : String :=
  if days ≤ 3 then "text-yellow-600 bg-yellow-100"
  else if days ≤ 7 then "text-orange-600 bg-orange-100"
  else "text-red-600 bg-red-100"

/-- From `QuarantineDashboard.tsx` lines 155-159: human-readable
quarantine-age label; the template literal is number-to-string plus
" days". -/
def getQuarantineStatusLabel (days : Nat) : String :=
  if days = 0 then "Today"
  else if days = 1 then "1 day"
  else Nat.repr days ++ " days"

/-- Fuel-indexed digit accumulation never shortens the accumulator. -/
lemma toDigitsCore_length_le (b : Nat) :
    ∀ (f n : Nat) (ds : List Char),
      ds.length ≤ (Nat.toDigitsCore b f n ds).length := by
  intro f
  induction f with
  | zero => intro n ds; exact le_refl _
  | succ f ih =>
    intro n ds
    show ds.length ≤ (if n / b = 0 then Nat.digitChar (n % b) :: ds
      else Nat.toDigitsCore b f (n / b) (Nat.digitChar (n % b) :: ds)).length
    by_cases h : n / b = 0
    · simp [h]
    · rw [if_neg h]
      have := ih (n / b) (Nat.digitChar (n % b) :: ds)
      simp only [List.length_cons] at this
      omega

/-- The decimal representation of a natural number is never empty. -/
lemma one_le_length_repr (n : Nat) : 1 ≤ (Nat.repr n).length := by
  show 1 ≤ (Nat.toDigitsCore 10 (n + 1) n []).length
  have h0 : (Nat.toDigitsCore 10 (n + 1) n []) =
      (if n / 10 = 0 then Nat.digitChar (n % 10) :: []
       else Nat.toDigitsCore 10 n (n / 10) (Nat.digitChar (n % 10) :: [])) := rfl
  rw [h0]
  by_cases h : n / 10 = 0
  · simp [h]
  · rw [if_neg h]
    have := toDigitsCore_length_le 10 n (n / 10) (Nat.digitChar (n % 10) :: [])
    simp only [List.length_cons, List.length_nil] at this
    omega

/-- Claim C8: `getQuarantineStatusLabel` returns "Today" exactly when the
day count is 0, "1 day" exactly when it is 1, and the count followed by
" days" otherwise; `getQuarantineStatusColor` returns the yellow classes
exactly for counts up to 3, the orange classes exactly for counts 4 to 7,
and the red classes beyond 7. -/
theorem quarantine_status_helpers (d : Nat) :
    (getQuarantineStatusLabel d = "Today" ↔ d = 0) ∧
    (getQuarantineStatusLabel d = "1 day" ↔ d = 1) ∧
    (2 ≤ d → getQuarantineStatusLabel d = Nat.repr d ++ " days") ∧
    (getQuarantineStatusColor d = "text-yellow-600 bg-yellow-100" ↔ d ≤ 3) ∧
    (getQuarantineStatusColor d = "text-orange-600 bg-orange-100" ↔ 3 < d ∧ d ≤ 7) ∧
    (7 < d → getQuarantineStatusColor d = "text-red-600 bg-red-100") := by
  have hbig : ∀ m : Nat, 2 ≤ m →
      (getQuarantineStatusLabel m = Nat.repr m ++ " days") := by
    intro m hm
    rw [getQuarantineStatusLabel, if_neg (by omega), if_neg (by omega)]
  have hlen : ∀ m : Nat, 2 ≤ m → 6 ≤ (getQuarantineStatusLabel m).length := by
    intro m hm
    rw [hbig m hm, String.length_append]
    have h1 := one_le_length_repr m
    have h2 : (" days" : String).length = 5 := rfl
    omega
  refine ⟨?_, ?_, hbig d, ?_, ?_, ?_⟩
  · constructor
    · intro h
      by_contra hne
      rcases Nat.lt_or_ge d 2 with hd | hd
      · have h1 : d = 1 := by omega
        subst h1
        exact absurd h (by decide)
      · have := hlen d hd
        rw [h] at this
        have h5 : ("Today" : String).length = 5 := rfl
        omega
    · intro h
      subst h
      rfl
  · constructor
    · intro h
      by_contra hne
      rcases Nat.lt_or_ge d 2 with hd | hd
      · have h0 : d = 0 := by omega
        subst h0
        exact absurd h (by decide)
      · have := hlen d hd
        rw [h] at this
        have h5 : ("1 day" : String).length = 5 := rfl
        omega
    · intro h
      subst h
      rfl
  · have hoy : ("text-orange-600 bg-orange-100" : String) ≠
        "text-yellow-600 bg-yellow-100" := by decide
    have hry : ("text-red-600 bg-red-100" : String) ≠
        "text-yellow-600 bg-yellow-100" := by decide
    by_cases h3 : d ≤ 3
    · simp [getQuarantineStatusColor, h3]
    · by_cases h7 : d ≤ 7 <;> simp [getQuarantineStatusColor, h3, h7, hoy, hry]
  · have hyo : ("text-yellow-600 bg-yellow-100" : String) ≠
        "text-orange-600 bg-orange-100" := by decide
    have hro : ("text-red-600 bg-red-100" : String) ≠
        "text-orange-600 bg-orange-100" := by decide
    by_cases h3 : d ≤ 3
    · simp [getQuarantineStatusColor, h3, hyo]
    · by_cases h7 : d ≤ 7
      · simp [getQuarantineStatusColor, h3, h7]
        omega
      · simp [getQuarantineStatusColor, h3, h7, hro]
  · intro h
    rw [getQuarantineStatusColor, if_neg (by omega), if_neg (by omega)]

/-- Witness for C8 at the concrete day count 9. -/
theorem quarantine_status_helpers_witness :
    2 ≤ 9 ∧ getQuarantineStatusLabel 9 = Nat.repr 9 ++ " days" ∧
    7 < 9 ∧ getQuarantineStatusColor 9 = "text-red-600 bg-red-100" :=
  ⟨by decide, (quarantine_status_helpers 9).2.2.1 (by decide), by decide,
   (quarantine_status_helpers 9).2.2.2.2.2 (by decide)⟩

end DashboardHelpers

section FetchErrorSurfacing

/-- Outcome of one REST call as the components see it: the `ok` flag of
the fetch response and the optional `error` field of the JSON body
(spec section 6: non-2xx responses return an error string). -/
structure ApiResponse where
  ok : Bool
  errorMsg : Option String
  deriving Repr, DecidableEq

/-- JavaScript `data.error || fallback`: the fallback is used when the
field is absent or the empty (falsy) string. -/
def jsOr (m : Option String) (fallback : String) : String :=
  match m with
  | none => fallback
  | some s => if s = "" then fallback else s

/-- Error-relevant state of `QuarantineDashboard` (QuarantineDashboard.tsx
lines 48-53): the loading flag and the `error` string state, where the
empty string means no error. -/
structure DashboardState where
  loading : Bool
  errorText : String
  deriving Repr, DecidableEq

/-- What the dashboard renders for a given state. -/
inductive DashboardView where
  | spinner
  | errorPanel (message : String) (hasRetry : Bool)
  | content
  deriving Repr, DecidableEq

/-- From `QuarantineDashboard.tsx` lines 161-182: while loading a spinner;
otherwise any non-empty error state renders the error block with the
message and a Retry button; otherwise the main content. -/
def renderDashboard (s : DashboardState) : DashboardView :=
  if s.loading then .spinner
  else if s.errorText = "" then .content
  else .errorPanel s.errorText true

/-- From `QuarantineDashboard.tsx` lines 57-87 (`fetchQuarantineData`):
when either response is non-ok the code throws the fixed message
"Failed to fetch quarantine data" — the backend error body is not read —
and the catch stores that message; on success the error is cleared. -/
def fetchQuarantineData (testsOk statsOk : Bool) (s : DashboardState) :
    DashboardState :=
  if testsOk && statsOk then { s with loading := false, errorText := "" }
  else { s with loading := false, errorText := "Failed to fetch quarantine data" }

/-- From `QuarantineDashboard.tsx` lines 89-119 (`handleUnquarantine`): a
non-ok response throws `data.error` with a fallback, and the catch stores
the message. -/
def handleUnquarantine (resp : ApiResponse) (s : DashboardState) :
    DashboardState :=
  if resp.ok then s
  else { s with errorText := jsOr resp.errorMsg "Failed to unquarantine test" }

/-- From `QuarantineDashboard.tsx` lines 121-143 (`runUnquarantineCheck`):
same shape with its own fallback message. -/
def runUnquarantineCheck (resp : ApiResponse) (s : DashboardState) :
    DashboardState :=
  if resp.ok then s
  else { s with errorText := jsOr resp.errorMsg "Failed to run check" }

/-- Error-relevant state of `QuarantinePolicyManager` (part_007 lines
107-113): the `error` string state and the current simulation result. -/
structure ManagerState where
  errorText : String
  simulation : Option PolicyImpactSimulation
  deriving Repr, DecidableEq

/-- From part_007 lines 173-191 (`simulatePolicy`): only an ok response
updates the simulation; a non-ok response falls through with no state
change, and a thrown error only hits `console.error` — neither path
touches the error state. -/
def simulatePolicy (resp : ApiResponse) (sim : Option PolicyImpactSimulation)
    (s : ManagerState) : ManagerState :=
  if resp.ok then { s with simulation := sim } else s

/-- What the manager surfaces as an error banner (part_007 lines 635-639):
only a non-empty error state is shown. -/
def renderManagerError (s : ManagerState) : Option String :=
  if s.errorText = "" then none else some s.errorText

/-- Claim C7 counterexample: a failed policy-simulation fetch carrying the
backend message "Simulation failed" leaves the `QuarantinePolicyManager`
state completely unchanged and surfaces no error at all — the failure is
silently dropped, with no verbatim message and no retry affordance.  The
dashboard's own data fetch also replaces the backend message "DB down"
with its fixed generic message rather than surfacing it verbatim. -/
theorem fetch_error_surfacing_counterexample :
    simulatePolicy { ok := false, errorMsg := some "Simulation failed" } none
      { errorText := "", simulation := none } =
      { errorText := "", simulation := none } ∧
    renderManagerError
      (simulatePolicy { ok := false, errorMsg := some "Simulation failed" } none
        { errorText := "", simulation := none }) = none ∧
    (fetchQuarantineData false true
      { loading := true, errorText := "" }).errorText =
      "Failed to fetch quarantine data" ∧
    "Failed to fetch quarantine data" ≠ "DB down" := by
  refine ⟨rfl, rfl, rfl, by decide⟩

/-- Claim C7 (amended): in `QuarantineDashboard` every failed fetch
surfaces a visible error with an inline Retry affordance — the
unquarantine and run-check paths surface the backend `error` string
verbatim (falling back to a fixed message when it is absent or empty),
while the initial data fetch shows its fixed generic message; the
policy-simulation fetch in `QuarantinePolicyManager` surfaces nothing. -/
theorem dashboard_fetch_errors_surfaced (s : DashboardState)
    (resp : ApiResponse) (hload : s.loading = false)
    (hfail : resp.ok = false) :
    renderDashboard (handleUnquarantine resp s) =
      .errorPanel (jsOr resp.errorMsg "Failed to unquarantine test") true ∧
    renderDashboard (runUnquarantineCheck resp s) =
      .errorPanel (jsOr resp.errorMsg "Failed to run check") true ∧
    (∀ tOk sOk : Bool, (tOk && sOk) = false →
      renderDashboard (fetchQuarantineData tOk sOk s) =
        .errorPanel "Failed to fetch quarantine data" true) ∧
    (∀ sim : Option PolicyImpactSimulation, ∀ m : ManagerState,
      simulatePolicy resp sim m = m) := by
  have hne : ∀ fb : String, fb ≠ "" → jsOr resp.errorMsg fb ≠ "" := by
    intro fb hfb
    cases h : resp.errorMsg with
    | none => simp [jsOr, hfb]
    | some m =>
      by_cases hm : m = "" <;> simp [jsOr, hm, hfb]
  refine ⟨?_, ?_, ?_, ?_⟩
  · rw [handleUnquarantine, if_neg (by simp [hfail])]
    rw [renderDashboard]
    rw [if_neg (by simp [hload]), if_neg (hne _ (by decide))]
  · rw [runUnquarantineCheck, if_neg (by simp [hfail])]
    rw [renderDashboard]
    rw [if_neg (by simp [hload]), if_neg (hne _ (by decide))]
  · intro tOk sOk hts
    rw [fetchQuarantineData, if_neg (by simp [hts])]
    rw [renderDashboard]
    rw [if_neg (by simp), if_neg (by decide)]
  · intro sim m
    rw [simulatePolicy, if_neg (by simp [hfail])]

/-- Witness for the amended C7 theorem at a concrete failed response. -/
theorem dashboard_fetch_errors_surfaced_witness :
    ({ ok := false, errorMsg := some "boom" } : ApiResponse).ok = false ∧
    renderDashboard (handleUnquarantine { ok := false, errorMsg := some "boom" }
      { loading := false, errorText := "" }) =
      .errorPanel (jsOr (some "boom") "Failed to unquarantine test") true :=
  ⟨rfl,
   (dashboard_fetch_errors_surfaced { loading := false, errorText := "" }
     { ok := false, errorMsg := some "boom" } rfl rfl).1⟩

end FetchErrorSurfacing

section SuitesInputParsing

/-- Whitespace removed by JavaScript `trim` for the characters that occur
in form input (space, tab, newline, carriage return). -/
def isFormWhitespace (c : Char) : Bool :=
  c = ' ' || c = '\t' || c = '\n' || c = '\r'

/-- Splitting accumulator: JavaScript `split(',')` over a character
list. -/
def splitOnCommaAux : List Char → List Char → List (List Char)
  | cur, [] => [cur.reverse]
  | cur, c :: rest =>
    if c = ',' then cur.reverse :: splitOnCommaAux [] rest
    else splitOnCommaAux (c :: cur) rest

/-- JavaScript `raw.split(',')` (part_007 line 497). -/
def splitOnComma (l : List Char) : List (List Char) :=
  splitOnCommaAux [] l

/-- Remove trailing whitespace. -/
def dropTrailing (l : List Char) : List Char :=
  (l.reverse.dropWhile isFormWhitespace).reverse

/-- JavaScript `s.trim()`: strip leading then trailing whitespace. -/
def trimChars (l : List Char) : List Char :=
  dropTrailing (l.dropWhile isFormWhitespace)

/-- From part_007 line 497: the suites-input change handler computes
`value.split(',').map(s => s.trim()).filter(s => s)` — split on commas,
trim each piece, drop empty (falsy) pieces. -/
def parseHighImpactSuites (raw : List Char) : List (List Char) :=
  ((splitOnComma raw).map trimChars).filter (fun x => !x.isEmpty)

/-- Dropping a satisfied prefix twice is the same as dropping it once. -/
lemma dropWhile_dropWhile {α : Type} (p : α → Bool) (l : List α) :
    (l.dropWhile p).dropWhile p = l.dropWhile p := by
  induction l with
  | nil => rfl
  | cons a t ih =>
    rw [List.dropWhile_cons]
    by_cases h : p a = true
    · rw [if_pos h]; exact ih
    · rw [if_neg h, List.dropWhile_cons, if_neg h]

/-- The head surviving a `dropWhile` fails the predicate. -/
lemma dropWhile_head_false {α : Type} (p : α → Bool) :
    ∀ (l : List α) (a : α) (t : List α), l.dropWhile p = a :: t → p a = false := by
  intro l
  induction l with
  | nil => intro a t h; exact absurd h (by simp)
  | cons b r ih =>
    intro a t h
    rw [List.dropWhile_cons] at h
    by_cases hb : p b = true
    · rw [if_pos hb] at h; exact ih a t h
    · rw [if_neg hb] at h
      injection h with h1 _
      subst h1
      simpa using hb

/-- Trailing-whitespace removal commutes with a non-whitespace head. -/
lemma dropTrailing_cons (a : Char) (l : List Char)
    (ha : isFormWhitespace a = false) :
    dropTrailing (a :: l) = a :: dropTrailing l := by
  rw [dropTrailing, dropTrailing, List.reverse_cons, List.dropWhile_append]
  by_cases h : (l.reverse.dropWhile isFormWhitespace).isEmpty = true
  · rw [if_pos h]
    have h1 : List.dropWhile isFormWhitespace [a] = [a] := by
      rw [List.dropWhile_cons, if_neg (by simp [ha])]
    have h2 : l.reverse.dropWhile isFormWhitespace = [] := by
      simpa using h
    rw [h1, h2]
    rfl
  · rw [if_neg h, List.reverse_append]
    rfl

/-- A list that is already left-trimmed stays left-trimmed after removing
trailing whitespace. -/
lemma dropWhile_dropTrailing (l : List Char)
    (h : l.dropWhile isFormWhitespace = l) :
    (dropTrailing l).dropWhile isFormWhitespace = dropTrailing l := by
  cases l with
  | nil => rfl
  | cons a t =>
    have ha : isFormWhitespace a = false :=
      dropWhile_head_false isFormWhitespace (a :: t) a t h
    rw [dropTrailing_cons a t ha, List.dropWhile_cons, if_neg (by simp [ha])]

/-- Trailing-whitespace removal is idempotent. -/
lemma dropTrailing_idem (l : List Char) :
    dropTrailing (dropTrailing l) = dropTrailing l := by
  rw [dropTrailing, dropTrailing, List.reverse_reverse, dropWhile_dropWhile]

/-- `trim` is idempotent. -/
lemma trimChars_idem (l : List Char) : trimChars (trimChars l) = trimChars l := by
  rw [trimChars, trimChars,
    dropWhile_dropTrailing (l.dropWhile isFormWhitespace)
      (dropWhile_dropWhile isFormWhitespace l)]
  exact dropTrailing_idem _

/-- Every element the suites parser produces is non-empty and fixed by
`trim`. -/
lemma parseHighImpactSuites_mem (raw : List Char) (x : List Char)
    (hx : x ∈ parseHighImpactSuites raw) : x ≠ [] ∧ trimChars x = x := by
  rw [parseHighImpactSuites, List.mem_filter] at hx
  obtain ⟨hmem, hne⟩ := hx
  rw [List.mem_map] at hmem
  obtain ⟨piece, _, rfl⟩ := hmem
  exact ⟨by simpa using hne, trimChars_idem piece⟩

/-- The policy-form state fields the `QuarantinePolicyManager` form edits
(part_007 lines 114-137 and the input handlers at lines 352-504), with
strings as character lists. -/
structure PolicyFormState where
  name : List Char
  description : List Char
  failureRateThreshold : ℚ
  confidenceThreshold : ℚ
  consecutiveFailures : Nat
  minRunsRequired : Nat
  stabilityPeriod : Nat
  successRateRequired : ℚ
  highImpactSuites : List (List Char)
  deriving Repr, DecidableEq

/-- The initial form state (part_007 lines 114-137), also restored by
`resetForm` (lines 279-301). -/
def initialFormState : PolicyFormState :=
  { name := []
    description := []
    failureRateThreshold := 1/2
    confidenceThreshold := 7/10
    consecutiveFailures := 3
    minRunsRequired := 5
    stabilityPeriod := 7
    successRateRequired := 19/20
    highImpactSuites := [] }

/-- The `setFormData` call sites of the form (part_007 lines 352-504,
plus `resetForm` and `useRecommendedPolicy` at lines 267-301). -/
inductive FormEvent where
  | editName (raw : List Char)
  | editDescription (raw : List Char)
  | editFailureRate (q : ℚ)
  | editConfidence (q : ℚ)
  | editConsecutive (n : Nat)
  | editMinRuns (n : Nat)
  | editStability (n : Nat)
  | editSuccessRate (q : ℚ)
  | editSuites (raw : List Char)
  | resetForm
  | useRecommended (cfg : PolicyFormState)

/-- State transition of the form for each `setFormData` call site.  The
suites edit stores the parsed raw value (line 497); `useRecommended`
adopts the server-provided recommended config wholesale (lines 267-277),
including its `highImpactSuites`. -/
def applyFormEvent : FormEvent → PolicyFormState → PolicyFormState
  | .editName raw, s => { s with name := raw }
  | .editDescription raw, s => { s with description := raw }
  | .editFailureRate q, s => { s with failureRateThreshold := q }
  | .editConfidence q, s => { s with confidenceThreshold := q }
  | .editConsecutive n, s => { s with consecutiveFailures := n }
  | .editMinRuns n, s => { s with minRunsRequired := n }
  | .editStability n, s => { s with stabilityPeriod := n }
  | .editSuccessRate q, s => { s with successRateRequired := q }
  | .editSuites raw, s => { s with highImpactSuites := parseHighImpactSuites raw }
  | .resetForm, _ => initialFormState
  | .useRecommended cfg, _ =>
    { cfg with
      name := ("AI Recommended Policy").data
      description := ("Policy automatically recommended based on project analysis").data }

/-- Form states reachable from the initial state through the component's
`setFormData` call sites. -/
inductive ReachableForm : PolicyFormState → Prop where
  | init : ReachableForm initialFormState
  | step (e : FormEvent) (s : PolicyFormState) :
      ReachableForm s → ReachableForm (applyFormEvent e s)

/-- The invariant claimed for `highImpactSuites`: every element is a
non-empty string without leading or trailing whitespace. -/
def SuitesInvariant (s : PolicyFormState) : Prop :=
  ∀ x ∈ s.highImpactSuites, x ≠ [] ∧ trimChars x = x

/-- A recommended policy as the server may return it: its
`highImpactSuites` entry carries surrounding spaces. -/
def badRecommended : PolicyFormState :=
  { initialFormState with highImpactSuites := [[' ', 'e', '2', 'e', ' ']] }

/-- Claim C9 counterexample: the form state reached by adopting the
AI-recommended policy (a single click, no suites-input edit) carries the
untrimmed entry " e2e " in `highImpactSuites`, so the invariant does not
hold for every state the form reaches. -/
theorem suites_invariant_counterexample :
    ReachableForm (applyFormEvent (.useRecommended badRecommended) initialFormState) ∧
    ¬ SuitesInvariant (applyFormEvent (.useRecommended badRecommended) initialFormState) := by
  refine ⟨ReachableForm.step _ _ ReachableForm.init, ?_⟩
  intro h
  have hx := h [' ', 'e', '2', 'e', ' ']
    (by simp [applyFormEvent, badRecommended, initialFormState])
  exact absurd hx.2 (by decide)

/-- Claim C9 (amended): after every edit of the High Impact Test Suites
text input, every element of `highImpactSuites` is a non-empty string
with no leading or trailing whitespace (the raw value is split on commas,
each piece trimmed, empty pieces dropped), and this invariant is
preserved by every other form transition except adopting a
server-provided recommended policy, which copies its suites verbatim. -/
theorem suites_edit_invariant :
    (∀ raw : List Char, ∀ s : PolicyFormState,
      SuitesInvariant (applyFormEvent (.editSuites raw) s)) ∧
    (∀ (e : FormEvent) (s : PolicyFormState), SuitesInvariant s →
      (∀ cfg, e ≠ .useRecommended cfg) →
      SuitesInvariant (applyFormEvent e s)) := by
  constructor
  · intro raw s x hx
    exact parseHighImpactSuites_mem raw x (by simpa [applyFormEvent] using hx)
  · intro e s hs hnr
    cases e with
    | editName raw => intro x hx; exact hs x (by simpa [applyFormEvent] using hx)
    | editDescription raw => intro x hx; exact hs x (by simpa [applyFormEvent] using hx)
    | editFailureRate q => intro x hx; exact hs x (by simpa [applyFormEvent] using hx)
    | editConfidence q => intro x hx; exact hs x (by simpa [applyFormEvent] using hx)
    | editConsecutive n => intro x hx; exact hs x (by simpa [applyFormEvent] using hx)
    | editMinRuns n => intro x hx; exact hs x (by simpa [applyFormEvent] using hx)
    | editStability n => intro x hx; exact hs x (by simpa [applyFormEvent] using hx)
    | editSuccessRate q => intro x hx; exact hs x (by simpa [applyFormEvent] using hx)
    | editSuites raw =>
      intro x hx
      exact parseHighImpactSuites_mem raw x (by simpa [applyFormEvent] using hx)
    | resetForm =>
      intro x hx
      simp [applyFormEvent, initialFormState] at hx
    | useRecommended cfg => exact absurd rfl (hnr cfg)

/-- Witness for the amended C9 theorem: a concrete edit of the suites
input yields only trimmed non-empty entries, and a name edit preserves the
invariant of the initial state. -/
theorem suites_edit_invariant_witness :
    SuitesInvariant (applyFormEvent
      (.editSuites (" e2e, integration ,,smoke").data) initialFormState) ∧
    SuitesInvariant (applyFormEvent (.editName ("x").data) initialFormState) :=
  ⟨suites_edit_invariant.1 (" e2e, integration ,,smoke").data initialFormState,
   suites_edit_invariant.2 (.editName ("x").data) initialFormState
     (fun x hx => absurd hx (List.not_mem_nil x))
     (fun _ h => FormEvent.noConfusion h)⟩

end SuitesInputParsing

end FlakyQuarantine
